import Mathlib

/-!
Verification of src/haperflux.py (circular aperture photometry on
Healpix maps): a shallow embedding of the unit converter
(convertToJy / planckcorr), the aperture photometer (haperflux) and the
batch driver (healpix_phot), with theorems checking the specification
claims against the embedded code.

Modelling conventions:
* Python floats are modelled as real numbers; Healpix map samples are
  modelled as rationals so that sentinel comparisons are decidable.
* Abnormal termination of the Python code (a call to exit, a NameError
  from an undefined identifier, a TypeError, a ValueError, a
  ZeroDivisionError) is modelled by the error side of Except.
* The healpy pixel geometry (ang2vec, query_disc) is an external
  capability per the spec; it is passed in as a record of functions.
* Messages printed by the code are recorded in the result where a claim
  refers to them: warnings of convertToJy travel with its return value,
  and the messages printed before a call to exit are carried by the
  exit outcome.
-/

/-- Abnormal outcomes of running the embedded Python code.  The exited
outcome carries the lines printed immediately before the process
terminates. -/
inductive PyErr where
  | exited (msgs : List String)
  | nameError (missing : String)
  | typeError (msg : String)
  | valueError (msg : String)
  | zeroDivisionError (msg : String)
  | external (msg : String)

/-- Warning printed by convertToJy when both npix and pix_area are
supplied (src/haperflux.py line 141). -/
def dualSpecMsg : String :=
  "Only one of npix or pix_area should be specified! Proceeding with npix."

/-- Message printed by convertToJy for an unrecognized unit label
(src/haperflux.py line 176). -/
def invalidUnitsMsg : String := "Invalid units specified! "

/-- Translation of planckcorr (src/haperflux.py lines 127-132). -/
noncomputable def planckcorr (freq : ℝ) : ℝ :=
  let h : ℝ := 6.62606957e-34
  let k : ℝ := 1.3806488e-23
  let T : ℝ := 2.725
  let x : ℝ := h * (freq * 1e9) / k / T
  (Real.exp x - 1) ^ 2 / x ^ 2 / Real.exp x

/-- The Rayleigh-Jeans brightness-temperature factor
2.*1381.*(thisfreq*1.0e9)**2/(2.997e8)**2 * pix_area, the expression
repeated in the K/mK/uK branches of convertToJy
(src/haperflux.py lines 150-165). -/
noncomputable def rjFactor (thisfreq pix_area : ℝ) : ℝ :=
  2 * 1381 * (thisfreq * 1.0e9) ^ 2 / (2.997e8) ^ 2 * pix_area

/-- The if/elif dispatch on the unit label inside convertToJy
(src/haperflux.py lines 147-178), given the resolved pixel solid angle.
The factor is initialized to 1.0 before the dispatch, so the final else
branch prints its message and leaves the factor at 1.0.  The average
branch reads the identifier ninnerpix, which is not defined anywhere in
the scope of convertToJy, hence a NameError. -/
noncomputable def unitFactor (units : String) (thisfreq : ℝ) (pix_area : ℝ) :
    Except PyErr (List String × ℝ) :=
  if units = "K" ∨ units = "K_RJ" ∨ units = "KRJ" then
    .ok ([], rjFactor thisfreq pix_area)
  else if units = "mK" ∨ units = "mK_RJ" ∨ units = "mKRJ" then
    .ok ([], rjFactor thisfreq pix_area / 1.0e3)
  else if units = "uK" ∨ units = "uK_RJ" ∨ units = "uKRJ" then
    .ok ([], rjFactor thisfreq pix_area / 1.0e6)
  else if units = "K_CMB" ∨ units = "KCMB" then
    .ok ([], rjFactor thisfreq pix_area / planckcorr thisfreq)
  else if units = "mK_CMB" ∨ units = "mKCMB" then
    .ok ([], rjFactor thisfreq pix_area / 1.0e3 / planckcorr thisfreq)
  else if units = "uK_CMB" ∨ units = "uKCMB" then
    .ok ([], rjFactor thisfreq pix_area / 1.0e6 / planckcorr thisfreq)
  else if units = "MJy/sr" ∨ units = "MJY/SR" ∨ units = "MjySr" then
    .ok ([], pix_area * 1.0e6)
  else if units = "Jy/pixel" ∨ units = "JY/PIXEL" ∨ units = "JY/PIX" ∨ units = "JyPix" then
    .ok ([], 1.0)
  else if units = "average" ∨ units = "avg" ∨ units = "Average" ∨ units = "AVG" then
    .error (.nameError "ninnerpix")
  else
    .ok ([invalidUnitsMsg], 1.0)

/-- Translation of convertToJy (src/haperflux.py lines 135-178).
The returned pair is (printed messages, factor).  Faithful points:
* when both npix and pix_area are supplied, the warning at line 141 is
  printed, but line 144 only derives pix_area from npix when pix_area
  is None, so the supplied pix_area is the one actually used;
* when neither is supplied, line 145 evaluates 4*pi/None, a TypeError;
* when npix is 0 the same line raises ZeroDivisionError. -/
noncomputable def convertToJy (units : String) (thisfreq : ℝ)
    (npix : Option ℕ) (pix_area : Option ℝ) : Except PyErr (List String × ℝ) :=
  let warnings := if pix_area.isSome && npix.isSome then [dualSpecMsg] else []
  match pix_area, npix with
  | none, none =>
      .error (.typeError "unsupported operand type for /: float and NoneType")
  | none, some n =>
      if n = 0 then .error (.zeroDivisionError "float division") else
      match unitFactor units thisfreq (4 * Real.pi / (n : ℝ)) with
      | .ok (msgs, f) => .ok (warnings ++ msgs, f)
      | .error e => .error e
  | some a, _ =>
      match unitFactor units thisfreq a with
      | .ok (msgs, f) => .ok (warnings ++ msgs, f)
      | .error e => .error e

/-- The unit labels recognized by some branch of convertToJy
(src/haperflux.py lines 149-174). -/
def recognizedUnits : List String :=
  ["K", "K_RJ", "KRJ", "mK", "mK_RJ", "mKRJ", "uK", "uK_RJ", "uKRJ",
   "K_CMB", "KCMB", "mK_CMB", "mKCMB", "uK_CMB", "uKCMB",
   "MJy/sr", "MJY/SR", "MjySr", "Jy/pixel", "JY/PIXEL", "JY/PIX", "JyPix",
   "average", "avg", "Average", "AVG"]

/-- Sentinel marking bad pixels, healpy hp.UNSEEN = -1.6375e30, written
as an explicit integer numeral so that comparisons reduce; the theorem
UNSEEN_eq below checks the value. -/
def UNSEEN : ℚ := -(1637500000000000000000000000000 : ℚ)

/-- Removal of sentinel pixels from a disc pixel list
(src/haperflux.py lines 324-335): bad = np.where(hmap[pix] == UNSEEN)
followed by np.delete(pix, bad).  Since np.where returns exactly the
positions of the sentinel entries, this positional delete keeps, in
order, the pixels whose map value is not the sentinel. -/
def maskUnseen (hmap : List ℚ) (pix : List ℕ) : List ℕ :=
  pix.filter (fun p => !(hmap.getD p 0 == UNSEEN))

/-- Semantics of np.delete(xs, idxs) for an integer index array: remove
the elements of xs whose POSITION appears in idxs (entries of idxs
beyond the length of xs have no effect, as in the numpy of the era the
repository targets). -/
def npDelete {α : Type} (xs : List α) (idxs : List ℕ) : List α :=
  (xs.enum.filter (fun p => !(idxs.contains p.1))).map Prod.snd

/-- The background annulus pixel list computed by haperflux
(src/haperflux.py line 351): bgpix = np.delete(outerpix2, outerpix1),
applied to the two sentinel-masked outer disc lists.  Note that
np.delete interprets its second argument as positions, not values. -/
def haperfluxAnnulus (hmap : List ℚ) (outerpix1 outerpix2 : List ℕ) : List ℕ :=
  npDelete (maskUnseen hmap outerpix2) (maskUnseen hmap outerpix1)

/-- Modelled from the spec wording for comparison: the annulus as a set
difference, the surviving pixels of the outer disc 2 that are not
members of the outer disc 1. -/
def annulusSetDifferenceSpec (hmap : List ℚ) (outerpix1 outerpix2 : List ℕ) : List ℕ :=
  (maskUnseen hmap outerpix2).filter (fun p => !((maskUnseen hmap outerpix1).contains p))

/-- Floor of the square root of a natural number, written so that it
reduces by computation (the largest k with k * k ≤ m, found among
0..m); used to model np.sqrt applied to the integer len(hmap)/12. -/
def natSqrtFloor (m : ℕ) : ℕ :=
  ((List.range (m + 1)).filter (fun k => Nat.ble (k * k) m)).length - 1

/-- The healpy pixel geometry consumed by haperflux, per the spec an
external capability supplied by contract: ang2vec maps (theta, phi) to
a unit vector, queryDisc maps (nside, center vector, radius in radians,
nested flag) to the list of pixel indices in the disc. -/
structure Geometry where
  ang2vec : ℝ → ℝ → ℝ × ℝ × ℝ
  queryDisc : ℕ → ℝ × ℝ × ℝ → ℝ → Bool → List ℕ

/-- Lines printed by the argument-vector guard of haperflux
(src/haperflux.py lines 252-256) before it terminates the process. -/
def usageMsgs : List String :=
  ["", "SYNTAX:-", "",
   "haperflux(inmap, freq, res_arcmin, lon, lat, aper_inner_radius, aper_outer_radius1, aper_outer_radius2, units, fd, fd_err, fd_bg,column, noise_model, /dopol, /nested)",
   ""]

/-- Lines printed when the map length fails the nside validity check
(src/haperflux.py lines 296-298). -/
def notHealpixMsgs : List String := ["", "Not a standard Healpix map...", ""]

/-- Lines printed when an aperture has no surviving pixels
(src/haperflux.py lines 338-340). -/
def noGoodPixelsMsgs : List String := ["", "***No good pixels inside aperture!***", ""]

/-- Translation of haperflux (src/haperflux.py lines 247-389).  The
unused parameters fd, fd_err, fd_bg, column, dopol and centroid of the
source signature are omitted: the body never reads them.  argvLen is
the ambient length of the process argument vector (len(sys.argv)),
consulted by the guard at line 251.  Faithful points:
* a single-element inmap is treated as a filename and handed to
  hp.read_map, an external call this embedding does not model;
* a zero-length inmap leaves the local hmap unassigned, so its first
  use raises NameError;
* nside = np.sqrt(len(hmap)/12) uses Python 2 integer floor division
  under a float sqrt; the guard round(nside,1)==nside and nside%2==0
  passes exactly when len(hmap)/12 is a perfect square with even root;
* in the no-good-pixels branch the source assigns fd = np.nan and
  fd_err = np.nan and then calls exit(): the assignments are dead
  writes to locals and the process terminates;
* line 355 evaluates covnertToJy, an identifier the module never
  defines (the function is named convertToJy), so NameError is raised
  and everything after line 355, including both noise models, is
  unreachable; line 373 would also read pix_area, likewise undefined
  inside haperflux. -/
noncomputable def haperflux (argvLen : ℕ) (G : Geometry) (inmap : List ℚ)
    (freq lon lat res_arcmin : ℝ)
    (aper_inner_radius aper_outer_radius1 aper_outer_radius2 : ℝ)
    (units : String) (nested : Bool) (noise_model : ℕ) (arcmin : Bool) :
    Except PyErr (ℝ × ℝ × ℝ) :=
  if 8 < argvLen then .error (.exited usageMsgs) else
  let _thisfreq := freq
  let _res_arcmin := res_arcmin
  let _units := units
  let _noise_model := noise_model
  let aper_inner_radius :=
    if arcmin then aper_inner_radius / 60 * Real.pi / 180 else aper_inner_radius
  let aper_outer_radius1 :=
    if arcmin then aper_outer_radius1 / 60 * Real.pi / 180 else aper_outer_radius1
  let aper_outer_radius2 :=
    if arcmin then aper_outer_radius2 / 60 * Real.pi / 180 else aper_outer_radius2
  let s := inmap.length
  if s = 1 then
    .error (.external "hp.read_map treats the single-element input as a filename")
  else
  if s = 0 then .error (.nameError "hmap") else
  let hmap := inmap
  let _ordering := if nested = false then "RING" else "NESTED"
  let m := hmap.length / 12
  let nside := natSqrtFloor m
  if ¬ (nside * nside = m ∧ nside % 2 = 0) then .error (.exited notHealpixMsgs) else
  let _npix := 12 * nside ^ 2
  let _ncolumn := hmap.length
  let phi := lon * Real.pi / 180
  let theta := Real.pi / 2 - lat * Real.pi / 180
  let vec0 := G.ang2vec theta phi
  let innerpix := G.queryDisc nside vec0 aper_inner_radius nested
  let outerpix1 := G.queryDisc nside vec0 aper_outer_radius1 nested
  let outerpix2 := G.queryDisc nside vec0 aper_outer_radius2 nested
  let innerpix_masked := maskUnseen hmap innerpix
  let ninnerpix := innerpix_masked.length
  let outerpix1_masked := maskUnseen hmap outerpix1
  let nouterpix1 := outerpix1_masked.length
  let outerpix2_masked := maskUnseen hmap outerpix2
  let nouterpix2 := outerpix2_masked.length
  if ninnerpix = 0 ∨ nouterpix1 = 0 ∨ nouterpix2 = 0 then
    .error (.exited noGoodPixelsMsgs)
  else
  let bgpix := haperfluxAnnulus hmap outerpix1 outerpix2
  let _nbgpix := bgpix.length
  .error (.nameError "covnertToJy")

/-- A flat 192-pixel map (192 = 12 * 4 * 4, so nside 4), every sample 1,
no sentinel pixels. -/
def mapFlat : List ℚ := List.replicate 192 1

/-- A geometry whose disc queries always return the empty pixel list. -/
def Gempty : Geometry := ⟨fun _ _ => (1, 0, 0), fun _ _ _ _ => []⟩

/-- A geometry whose disc queries always return the single pixel 0. -/
def Gsingle : Geometry := ⟨fun _ _ => (1, 0, 0), fun _ _ _ _ => [0]⟩

/-- The pieces of a map file that healpix_phot reads through the
external collaborator hp.read_map: the sample array and the header
fields FREQ and TUNIT1 (src/haperflux.py lines 212-214). -/
structure MapFile where
  data : List ℚ
  freq : String
  tunit1 : String

/-- Reference table of band frequency labels
(src/haperflux.py line 183). -/
def freqlist : List String :=
  ["30", "44", "70", "100", "143", "217", "353", "545", "857", "1874",
   "2141", "2998", "3331", "4612", "4997", "11992", "16655", "24983", "33310"]

/-- Reference table of band frequencies in GHz
(src/haperflux.py line 184); defined in the source and never read. -/
def freqval : List ℝ :=
  [28.405889, 44.072241, 70.421396, 100, 143, 217, 353, 545, 857, 1874,
   2141, 2998, 3331, 4612, 4997, 11992, 16655, 24983, 33310]

/-- Reference table of nominal beam FWHM values in arcminutes
(src/haperflux.py line 185). -/
def fwhmlist : List ℝ :=
  [33.1587, 28.0852, 13.0812, 9.88, 7.18, 4.87, 4.65, 4.72, 4.39, 0.86,
   0.86, 4.3, 0.86, 0.86, 4, 3.8, 0.86, 3.8, 0.86]

/-- Band name table (src/haperflux.py line 186); defined in the source
and never read. -/
def bandNames : List String :=
  ["akari9", "iras12", "akari18", "iras25", "iras60", "akari65",
   "akari90", "iras100", "akari140", "akari160", "planck857", "planck545"]

/-- Model of np.isfinite on the embedded values: every rational or real
value the embedding produces is finite; NaN and infinity are
floating-point artifacts with no counterpart in this model, and the
embedded haperflux in fact never returns a value at all. -/
def npIsfinite (x : ℝ) : Bool :=
  let _ := x
  true

/-- Model of the Python conversion int(s) for the header frequency
string (src/haperflux.py line 217): parses a nonempty all-digit string
as an integer and fails with ValueError otherwise. -/
def pyInt (s : String) : Option ℤ :=
  if s.data ≠ [] ∧ s.data.all (fun c => c.isDigit) then
    some (s.data.foldl (fun acc c => acc * 10 + ((c.toNat : ℤ) - 48)) 0)
  else none

/-- Translation of healpix_phot (src/haperflux.py lines 180-243).  The
external reads are passed in: targets is the parsed target table
(glon, glat per target), fn the parsed map list, readMap the
hp.read_map collaborator.  argvLen is the ambient process argument
vector length seen by the nested haperflux calls.  Faithful points:
* k1 = rinner/radius at line 189 is evaluated before anything else; if
  the caller passed radius = None this divides a float by None and
  raises TypeError, so the whole no-explicit-radius path dies at entry;
* apcor is computed once from the caller-supplied radius, not from the
  per-map nominal FWHM (radval, lines 219-222, is computed and never
  used);
* the per-cell haperflux call passes res_arcmin = radius and
  aper_inner_radius = radius, aper_outer_radius1 = rinner,
  aper_outer_radius2 = router (lines 230-233);
* an exception from haperflux propagates and aborts the whole batch;
* the result is returned as one list per map, each holding the
  (fd, fd_err, fd_bg) triple per target; the source stores the same
  cells into three preallocated (targets x maps) arrays. -/
noncomputable def healpix_phot (argvLen : ℕ) (G : Geometry)
    (readMap : String → MapFile) (targets : List (ℝ × ℝ)) (fn : List String)
    (radius : Option ℝ) (rinner router : ℝ) :
    Except PyErr (List (List (ℝ × ℝ × ℝ))) :=
  match radius with
  | none => .error (.typeError "unsupported operand type for /: float and NoneType")
  | some rad =>
    let k0 : ℝ := 1.0
    let k1 : ℝ := rinner / rad
    let k2 : ℝ := router / rad
    let apcor : ℝ :=
      ((1 - (0.5 : ℝ) ^ ((4 : ℝ) * k0 ^ 2)) -
        ((0.5 : ℝ) ^ ((4 : ℝ) * k1 ^ 2) - (0.5 : ℝ) ^ ((4 : ℝ) * k2 ^ 2))) ^ (-1 : ℝ)
    fn.mapM (fun f =>
      let mf := readMap f
      let freq := mf.freq
      let units := mf.tunit1
      match freqlist.findIdx? (fun q => q == freq) with
      | none => .error (.valueError "is not in list")
      | some idx =>
        match pyInt freq with
        | none => .error (.valueError "invalid literal for int")
        | some currfreq =>
          let _radval : ℝ := if radius.isNone then fwhmlist.getD idx 0 else rad
          targets.mapM (fun t =>
            match haperflux argvLen G mf.data (currfreq : ℝ) t.1 t.2 rad rad
                rinner router units false 0 true with
            | .error e => .error e
            | .ok (fd, fd_err, fd_bg) =>
              if npIsfinite fd_err = false then
                .ok ((-1 : ℝ), (-1 : ℝ), fd_bg)
              else if radius.isNone then
                .ok (fd * apcor, fd_err * apcor, fd_bg)
              else
                .ok (fd, fd_err, fd_bg)))

/-- A read-map collaborator returning the flat 192-pixel map with
header FREQ 100 and TUNIT1 K for every file name. -/
noncomputable def readMapFlat : String → MapFile := fun _ => ⟨mapFlat, "100", "K"⟩

/-- Sanity check: the numeral used for the sentinel is -1.6375e30. -/
theorem UNSEEN_eq : UNSEEN = -1.6375e30 := by norm_num [UNSEEN]

/-- C3 counterexample: convertToJy on the unrecognized label banana
prints the error message but returns factor 1.0 as a normal result,
the same numeric factor it returns for the valid label Jy/pixel; so it
does return a usable numeric conversion factor. -/
theorem convertToJy_invalid_unit_returns_factor_one :
    convertToJy "banana" 100 (some 192) none = .ok ([invalidUnitsMsg], 1.0) ∧
    convertToJy "Jy/pixel" 100 (some 192) none = .ok ([], 1.0) :=
  ⟨rfl, rfl⟩

/-- C3 (amended): for every unit label outside the recognized table and
every frequency and nonzero pixel count, convertToJy prints the message
Invalid units specified! and returns the initialized factor 1.0 as a
normal, non-fatal result. -/
theorem convertToJy_unrecognized_label_warns_and_returns_one
    (units : String) (freq : ℝ) (n : ℕ)
    (hu : units ∉ recognizedUnits) (hn : n ≠ 0) :
    convertToJy units freq (some n) none = .ok ([invalidUnitsMsg], 1.0) := by
  simp only [recognizedUnits, List.mem_cons, List.not_mem_nil, or_false, not_or] at hu
  obtain ⟨h01, h02, h03, h04, h05, h06, h07, h08, h09, h10, h11, h12, h13,
    h14, h15, h16, h17, h18, h19, h20, h21, h22, h23, h24, h25, h26⟩ := hu
  simp [convertToJy, unitFactor, hn, h01, h02, h03, h04, h05, h06, h07, h08,
    h09, h10, h11, h12, h13, h14, h15, h16, h17, h18, h19, h20, h21, h22,
    h23, h24, h25, h26]

/-- Witness for the amended C3 theorem at a concrete input. -/
theorem convertToJy_unrecognized_label_witness :
    "banana" ∉ recognizedUnits ∧ (192 : ℕ) ≠ 0 ∧
    convertToJy "banana" 100 (some 192) none = .ok ([invalidUnitsMsg], 1.0) :=
  ⟨by decide, by decide,
    convertToJy_unrecognized_label_warns_and_returns_one "banana" 100 192
      (by decide) (by decide)⟩

/-- C7: the claim fails on the code.  When both npix and pix_area are
supplied, convertToJy prints the warning announcing it will proceed
with npix, but the solid angle actually used is the supplied pix_area
(line 144 only derives 4*pi/npix when pix_area is None): at units K,
freq 1, npix 12, pix_area 2 the factor is built from 2, and that value
differs from the factor built from 4*pi/12. -/
theorem convertToJy_dual_specification_uses_supplied_pix_area :
    convertToJy "K" 1 (some 12) (some 2) = .ok ([dualSpecMsg], rjFactor 1 2) ∧
    rjFactor 1 2 ≠ rjFactor 1 (4 * Real.pi / 12) := by
  refine ⟨rfl, ?_⟩
  intro h
  unfold rjFactor at h
  have h2 : (2 : ℝ) = 4 * Real.pi / 12 :=
    mul_left_cancel₀ (by positivity) h
  have := Real.pi_lt_d2
  linarith

/-- C9 counterexample: at frequency 100 and npix 192 the factor for
mK_RJ is the K_RJ factor divided by 1000, not 1000 times it; the two
quantities are different because the K_RJ factor is strictly positive. -/
theorem convertToJy_mK_RJ_not_thousand_times_K_RJ :
    convertToJy "mK_RJ" 100 (some 192) none
      = .ok ([], rjFactor 100 (4 * Real.pi / ((192 : ℕ) : ℝ)) / 1.0e3) ∧
    convertToJy "K_RJ" 100 (some 192) none
      = .ok ([], rjFactor 100 (4 * Real.pi / ((192 : ℕ) : ℝ))) ∧
    rjFactor 100 (4 * Real.pi / ((192 : ℕ) : ℝ)) / 1.0e3
      ≠ 1000 * rjFactor 100 (4 * Real.pi / ((192 : ℕ) : ℝ)) := by
  refine ⟨rfl, rfl, ?_⟩
  have hpos : 0 < rjFactor 100 (4 * Real.pi / ((192 : ℕ) : ℝ)) := by
    unfold rjFactor
    have := Real.pi_pos
    positivity
  intro h
  rw [show (1.0e3 : ℝ) = 1000 by norm_num] at h
  linarith

/-- C9 (amended): for every frequency and nonzero pixel count, the
factor convertToJy returns for K_RJ is exactly 1000 times the factor it
returns for mK_RJ (equivalently, the mK_RJ factor is the K_RJ factor
divided by 1000). -/
theorem convertToJy_K_RJ_thousand_times_mK_RJ (freq : ℝ) (n : ℕ) (hn : n ≠ 0) :
    convertToJy "K_RJ" freq (some n) none
      = .ok ([], rjFactor freq (4 * Real.pi / (n : ℝ))) ∧
    convertToJy "mK_RJ" freq (some n) none
      = .ok ([], rjFactor freq (4 * Real.pi / (n : ℝ)) / 1.0e3) ∧
    rjFactor freq (4 * Real.pi / (n : ℝ))
      = 1000 * (rjFactor freq (4 * Real.pi / (n : ℝ)) / 1.0e3) := by
  refine ⟨?_, ?_, ?_⟩
  · simp [convertToJy, unitFactor, hn]
  · simp [convertToJy, unitFactor, hn]
  · rw [show (1.0e3 : ℝ) = 1000 by norm_num]
    ring

/-- Witness for the amended C9 theorem at a concrete input. -/
theorem convertToJy_K_RJ_thousand_times_mK_RJ_witness :
    (192 : ℕ) ≠ 0 ∧
    (convertToJy "K_RJ" 100 (some 192) none
        = .ok ([], rjFactor 100 (4 * Real.pi / ((192 : ℕ) : ℝ))) ∧
      convertToJy "mK_RJ" 100 (some 192) none
        = .ok ([], rjFactor 100 (4 * Real.pi / ((192 : ℕ) : ℝ)) / 1.0e3) ∧
      rjFactor 100 (4 * Real.pi / ((192 : ℕ) : ℝ))
        = 1000 * (rjFactor 100 (4 * Real.pi / ((192 : ℕ) : ℝ)) / 1.0e3)) :=
  ⟨by decide, convertToJy_K_RJ_thousand_times_mK_RJ 100 192 (by decide)⟩

set_option maxRecDepth 8000 in
/-- C1: the claim fails on the code.  With masked outer disc 1 equal to
[1, 2] and masked outer disc 2 equal to [1, 2, 3, 4, 5] on a flat map,
the annulus haperflux computes via np.delete is [1, 4, 5] (positions
1 and 2 of the outer list removed), while the claimed set difference is
[3, 4, 5]: pixel 1 stays in the annulus although it lies inside outer
radius 1, and pixel 3 is dropped although it lies between the radii. -/
theorem annulus_positional_delete_ne_set_difference :
    haperfluxAnnulus mapFlat [1, 2] [1, 2, 3, 4, 5] = [1, 4, 5] ∧
    annulusSetDifferenceSpec mapFlat [1, 2] [1, 2, 3, 4, 5] = [3, 4, 5] ∧
    (1 ∈ haperfluxAnnulus mapFlat [1, 2] [1, 2, 3, 4, 5] ∧
      1 ∈ maskUnseen mapFlat [1, 2]) ∧
    (3 ∉ haperfluxAnnulus mapFlat [1, 2] [1, 2, 3, 4, 5] ∧
      3 ∈ maskUnseen mapFlat [1, 2, 3, 4, 5] ∧ 3 ∉ maskUnseen mapFlat [1, 2]) := by
  decide

set_option maxRecDepth 8000 in
/-- C2: the claim fails on the code.  On a valid 192-pixel map whose
disc queries return no pixels, all three surviving counts are zero and
haperflux terminates the whole process through exit() after printing
the no-good-pixels message; nothing is returned to the caller, so an
enclosing batch is aborted rather than continued. -/
theorem haperflux_no_good_pixels_exits_process :
    haperflux 1 Gempty mapFlat 100 0 0 30 10 20 40 "K" false 0 true
      = .error (.exited noGoodPixelsMsgs) := rfl

set_option maxRecDepth 8000 in
/-- C4: the claim fails on the code.  A fully valid measurement with
noise_model 0 (valid 192-pixel map, nonempty discs, recognized unit
label) never reaches the error formula: line 355 raises NameError on
the undefined identifier covnertToJy. -/
theorem haperflux_noise_model0_raises_name_error :
    haperflux 1 Gsingle mapFlat 100 30 40 30 10 20 40 "K" false 0 true
      = .error (.nameError "covnertToJy") := rfl

set_option maxRecDepth 8000 in
/-- C5: the claim fails on the code.  A fully valid measurement with
noise_model 1 never reaches the robust-sigma error formula at lines
377-383: line 355 raises NameError on the undefined identifier
covnertToJy first. -/
theorem haperflux_noise_model1_raises_name_error :
    haperflux 1 Gsingle mapFlat 143 10 20 5 15 25 45 "mK_RJ" false 1 true
      = .error (.nameError "covnertToJy") := rfl

/-- C10: haperflux consults the ambient process argument vector first:
whenever it holds more than 8 entries, the function prints the usage
lines and terminates the process, for every value of its own
parameters. -/
theorem haperflux_argv_guard_exits (argvLen : ℕ) (G : Geometry) (inmap : List ℚ)
    (freq lon lat res_arcmin r1 r2 r3 : ℝ) (units : String)
    (nested : Bool) (noise_model : ℕ) (arcmin : Bool) (h : 8 < argvLen) :
    haperflux argvLen G inmap freq lon lat res_arcmin r1 r2 r3 units
      nested noise_model arcmin = .error (.exited usageMsgs) := by
  unfold haperflux
  rw [if_pos h]

/-- Witness for the C10 theorem at a concrete input. -/
theorem haperflux_argv_guard_exits_witness :
    8 < 9 ∧
    haperflux 9 Gempty mapFlat 100 0 0 30 10 20 40 "K" false 0 true
      = .error (.exited usageMsgs) :=
  ⟨by decide,
    haperflux_argv_guard_exits 9 Gempty mapFlat 100 0 0 30 10 20 40 "K"
      false 0 true (by decide)⟩

/-- C6: the claim fails on the code.  On the no-explicit-radius path
(radius = None), the very first statements of healpix_phot evaluate
k1 = rinner/radius, dividing a float by None: the run raises TypeError
before reading any map or target, so the aperture correction is never
applied to any cell; the apcor branch itself tests radius == None and
is therefore unreachable whenever apcor exists. -/
theorem healpix_phot_no_explicit_radius_type_error :
    healpix_phot 1 Gsingle readMapFlat [(0, 0)] ["map0"] none 60 80
      = .error (.typeError "unsupported operand type for /: float and NoneType") := rfl

set_option maxRecDepth 8000 in
/-- C8: the claim fails on the code.  With an explicit radius, one
target and one valid map, the first cell measurement raises NameError
on the undefined identifier covnertToJy inside haperflux; the exception
propagates, so the sentinel-overwrite branch never runs and no dense
result table is returned. -/
theorem healpix_phot_first_cell_name_error_aborts_batch :
    healpix_phot 1 Gsingle readMapFlat [(0, 0)] ["map0"] (some 30) 60 80
      = .error (.nameError "covnertToJy") := rfl
